import Mathlib

/-!
Shallow embedding of the project-scaffolding script `init.py` (single source
file of the repository).  Pure computations (name validation, template
rendering, README content) are translated as Lean functions; the stateful
pipeline is translated as explicit state passing over a filesystem model plus
an event trace, with Python exceptions modelled by `Except`.  External tools
(git, poetry, pip) are opaque processes observed only through their exit
status, so the model is parametric in an `ExtEnv` of exit codes; the tools'
own filesystem effects are outside the modelled tree.
-/

namespace PyBoilerplate

/-! ## Name validation (`Runner.__init__`, line 22)

The source tests `re.match(r"^[a-zA-Z0-9\-_]+$", project_name)`.  In Python,
`$` (without MULTILINE) matches at the end of the string or just before a
single newline at the very end of the string, so the regex accepts a nonempty
run of allowed characters optionally followed by exactly one trailing
newline. -/

def isAllowedChar (c : Char) : Bool :=
  decide ((97 ≤ c.toNat ∧ c.toNat ≤ 122) ∨ (65 ≤ c.toNat ∧ c.toNat ≤ 90) ∨
    (48 ≤ c.toNat ∧ c.toNat ≤ 57) ∨ c = '-' ∨ c = '_')

def stripTrailingNewline (cs : List Char) : List Char :=
  if cs.getLast? = some '\n' then cs.dropLast else cs

def nameRegexMatch (cs : List Char) : Bool :=
  let core := stripTrailingNewline cs
  !core.isEmpty && core.all isAllowedChar

/-! ## Python `str.lower` (ASCII range; the prompt answers are ASCII) -/

def asciiLowerChar (c : Char) : Char :=
  if 65 ≤ c.toNat ∧ c.toNat ≤ 90 then Char.ofNat (c.toNat + 32) else c

def pyLower (s : String) : String :=
  (s.data.map asciiLowerChar).asString

/-! ## Python `str.replace` (`SetuptoolsRunner._2_copy_pyproject_toml`, lines 90-94)

Leftmost, non-overlapping replacement of every occurrence of a pattern.  The
recursion is driven by a fuel argument initialised to the string length, which
is always sufficient because each step consumes at least one character (the
patterns used by the source, the two placeholder literals, are nonempty). -/

def replaceFuel (pat repl : List Char) : Nat → List Char → List Char
  | _, [] => []
  | 0, cs => cs
  | fuel + 1, c :: rest =>
    if pat.isPrefixOf (c :: rest) then
      repl ++ replaceFuel pat repl fuel ((c :: rest).drop pat.length)
    else
      c :: replaceFuel pat repl fuel rest

def replaceAll (pat repl cs : List Char) : List Char :=
  replaceFuel pat repl cs.length cs

def pyReplace (s pat repl : String) : String :=
  (replaceAll pat.data repl.data s.data).asString

def containsPat (pat : List Char) : List Char → Bool
  | [] => pat.isEmpty
  | c :: rest => pat.isPrefixOf (c :: rest) || containsPat pat rest

/-- The literal `{{project_name}}` (braces escaped). -/
def projectNamePlaceholder : String := "\x7b\x7bproject_name\x7d\x7d"

/-- The literal `{{description}}` (braces escaped). -/
def descriptionPlaceholder : String := "\x7b\x7bdescription\x7d\x7d"

/-- One line of `pyproject.setuptools.toml` as rewritten by the loop in
`_2_copy_pyproject_toml`: both placeholders replaced, chained exactly as in
the source. -/
def renderLine (name desc line : String) : String :=
  pyReplace (pyReplace line projectNamePlaceholder name) descriptionPlaceholder desc

/-- The whole template rewritten line by line (`for line in infile`). -/
def renderSetuptoolsLines (name desc : String) (lines : List String) : List String :=
  lines.map (renderLine name desc)

/-! ## Filesystem model

Paths are segment lists (`Path.absolute()` is modelled as the identity); the
filesystem is an association list from paths to entries, most recent write
first. -/

abbrev Path := List String

inductive Entry
  | dir
  | file (content : String)
  deriving DecidableEq, Repr

abbrev FS := List (Path × Entry)

def FS.lookup (fs : FS) (p : Path) : Option Entry :=
  (fs.find? (fun kv => kv.1 == p)).map Prod.snd

def FS.set (fs : FS) (p : Path) (e : Entry) : FS :=
  (p, e) :: fs.filter (fun kv => kv.1 != p)

/-- `Path.touch()`: create an empty file when absent, otherwise only update
the mtime — the existing content is NOT truncated. -/
def touchOp (p : Path) (fs : FS) : FS :=
  match fs.lookup p with
  | some _ => fs
  | none => FS.set fs p (Entry.file "")

/-- All nonempty prefixes of a path, shortest first. -/
def pathPrefixes (p : Path) : List Path :=
  (List.range p.length).map (fun i => p.take (i + 1))

inductive Err
  | invalidName
  | notADirectory (p : Path)
  | pathConflict (p : Path)
  | osError (p : Path)
  | externalToolError (tool : String) (exitCode : Int)
  deriving DecidableEq, Repr

def ensureDir (q : Path) (fs : FS) : Except Err FS :=
  match fs.lookup q with
  | some Entry.dir => Except.ok fs
  | some (Entry.file _) => Except.error (Err.osError q)
  | none => Except.ok (FS.set fs q Entry.dir)

/-- `Path.mkdir(parents=True, exist_ok=True)`: create every missing segment
of the path as a directory; an existing directory is not an error, an entry
that is not a directory is an `OSError`. -/
def mkdirParentsExistOk (p : Path) (fs : FS) : Except Err FS :=
  (pathPrefixes p).foldlM (fun fs q => ensureDir q fs) fs

/-! ## Pipeline state: filesystem plus a trace of side-effecting events -/

inductive Event
  | mkdirProjectRoot
  | writeReadme
  | mkdirSrc
  | touchInit
  | copyBaseFile (filename : String)
  | gitInit
  | writePyprojectSetuptools
  | appendPyprojectBase
  | createVenv
  | pipInstall
  | poetryInit
  | poetrySync
  deriving DecidableEq, Repr

structure St where
  fs : FS
  trace : List Event
  deriving DecidableEq, Repr

/-- A stage result: Python exceptions abort the run, leaving the filesystem
state reached so far on disk, so an error carries that state. -/
abbrev StageResult := Except (Err × St) St

instance : DecidableEq StageResult := fun a b =>
  match a, b with
  | Except.ok x, Except.ok y =>
    if h : x = y then isTrue (by rw [h]) else isFalse (by simp [h])
  | Except.error x, Except.error y =>
    if h : x = y then isTrue (by rw [h]) else isFalse (by simp [h])
  | Except.ok _, Except.error _ => isFalse (by simp)
  | Except.error _, Except.ok _ => isFalse (by simp)

def runOk : StageResult → Bool
  | Except.ok _ => true
  | Except.error _ => false

def resultState : StageResult → St
  | Except.ok s => s
  | Except.error es => es.2

def resultTrace (x : StageResult) : List Event :=
  (resultState x).trace

/-! ## The `Runner` object (lines 12-32) -/

structure Runner where
  projectRootPath : Path
  projectName : String
  projectNameCamelcase : String
  projectPythonPath : Path
  description : String
  deriving DecidableEq

/-- `project_name.replace("-", "_")`. -/
def pyCamel (s : String) : String :=
  (s.data.map (fun c => if c = '-' then '_' else c)).asString

/-- Field computations of `Runner.__init__` after validation succeeded. -/
def mkRunner (projectPath : Path) (projectName description : String) : Runner :=
  { projectRootPath := projectPath
    projectName := projectName
    projectNameCamelcase := pyCamel projectName
    projectPythonPath := projectPath ++ ["src", pyCamel projectName]
    description := description }

/-- `Runner.__init__` (lines 21-32): validates the name with the regex, then
only computes fields — no filesystem access. -/
def Runner.init (projectPath : Path) (projectName description : String) :
    Except Err Runner :=
  if nameRegexMatch projectName.data then
    Except.ok (mkRunner projectPath projectName description)
  else
    Except.error Err.invalidName

/-- Exit codes of the external tools, one per invoked command. -/
structure ExtEnv where
  gitInitCode : Int
  pipInstallCode : Int
  poetryInitCode : Int
  poetrySyncCode : Int
  deriving DecidableEq

/-- Contents of the template files that sit next to `init.py` (they are part
of the repository but not of the provided source listing, so they are
parameters of the model). -/
structure SourceTree where
  baseFileContent : String → String
  setuptoolsTomlLines : List String
  baseToml : String

/-! ## Stages -/

/-- `_1_create_project_dir` (lines 34-43): existence/force gate, then
`mkdir(parents=True)` (the target is known absent in that branch, so missing
ancestors are created; a non-directory ancestor is an `OSError`). -/
def createProjectDir (r : Runner) (force : Bool) (s : St) : StageResult :=
  match s.fs.lookup r.projectRootPath with
  | some (Entry.file _) => Except.error (Err.notADirectory r.projectRootPath, s)
  | some Entry.dir =>
    if force then Except.ok s
    else Except.error (Err.pathConflict r.projectRootPath, s)
  | none =>
    match mkdirParentsExistOk r.projectRootPath s.fs with
    | Except.error e => Except.error (e, s)
    | Except.ok fs1 =>
      Except.ok { fs := fs1, trace := s.trace ++ [Event.mkdirProjectRoot] }

/-- `_2_write_readme` (lines 51-57): write `# {name}`, then append
`\n{description}` only when the description is truthy (nonempty). -/
def writeReadme (r : Runner) (s : St) : StageResult :=
  let content := "# " ++ r.projectName ++
    (if r.description ≠ "" then "\n" ++ r.description else "")
  Except.ok
    { fs := FS.set s.fs (r.projectRootPath ++ ["README.md"]) (Entry.file content)
      trace := s.trace ++ [Event.writeReadme] }

/-- `_2_create_src_dir` (lines 59-64): `mkdir(parents=True, exist_ok=True)`
on `src/<camelcase>`, then `touch` the `__init__.py` marker. -/
def createSrcDir (r : Runner) (s : St) : StageResult :=
  match mkdirParentsExistOk r.projectPythonPath s.fs with
  | Except.error e => Except.error (e, s)
  | Except.ok fs1 =>
    Except.ok
      { fs := touchOp (r.projectPythonPath ++ ["__init__.py"]) fs1
        trace := s.trace ++ [Event.mkdirSrc, Event.touchInit] }

/-- `_2_copy_base_files` (lines 45-49): `shutil.copy` of each static template
into the project root (overwriting any destination). -/
def copyBaseFiles (baseFilenames : List String) (src : SourceTree) (r : Runner)
    (s : St) : StageResult :=
  Except.ok
    { fs := baseFilenames.foldl
        (fun fs n => FS.set fs (r.projectRootPath ++ [n])
          (Entry.file (src.baseFileContent n))) s.fs
      trace := s.trace ++ baseFilenames.map Event.copyBaseFile }

/-- `_2_init_git` (lines 66-69): `subprocess.run("git init", check=True)` —
a non-zero exit raises `CalledProcessError`. -/
def initGit (env : ExtEnv) (r : Runner) (s : St) : StageResult :=
  let s1 : St := { s with trace := s.trace ++ [Event.gitInit] }
  if env.gitInitCode = 0 then Except.ok s1
  else Except.error (Err.externalToolError "git init" env.gitInitCode, s1)

/-- `_update_pyproject_toml` (lines 71-75): open `pyproject.toml` in append
mode (creating it when absent), write a newline and then the whole of
`pyproject.base.toml`. -/
def updatePyprojectToml (src : SourceTree) (r : Runner) (s : St) : StageResult :=
  match s.fs.lookup (r.projectRootPath ++ ["pyproject.toml"]) with
  | some Entry.dir => Except.error (Err.osError (r.projectRootPath ++ ["pyproject.toml"]), s)
  | some (Entry.file c) =>
    Except.ok
      { fs := FS.set s.fs (r.projectRootPath ++ ["pyproject.toml"])
          (Entry.file (c ++ "\n" ++ src.baseToml))
        trace := s.trace ++ [Event.appendPyprojectBase] }
  | none =>
    Except.ok
      { fs := FS.set s.fs (r.projectRootPath ++ ["pyproject.toml"])
          (Entry.file ("\n" ++ src.baseToml))
        trace := s.trace ++ [Event.appendPyprojectBase] }

def baseFilenamesDefault : List String :=
  [".flake8", ".gitignore", "LICENSE", ".editorconfig"]

def baseFilenamesPoetry : List String :=
  [".flake8", ".gitignore", "LICENSE", ".editorconfig", "poetry.toml"]

/-- `Runner.run` (lines 77-83): the shared stage sequence.  Each statement is
a match so that a raised exception aborts the remaining statements. -/
def runnerRun (baseFilenames : List String) (env : ExtEnv) (src : SourceTree)
    (r : Runner) (force noGit : Bool) (s : St) : StageResult :=
  match createProjectDir r force s with
  | Except.error e => Except.error e
  | Except.ok s =>
  match writeReadme r s with
  | Except.error e => Except.error e
  | Except.ok s =>
  match createSrcDir r s with
  | Except.error e => Except.error e
  | Except.ok s =>
  match copyBaseFiles baseFilenames src r s with
  | Except.error e => Except.error e
  | Except.ok s =>
  if noGit then Except.ok s else initGit env r s

/-- `SetuptoolsRunner._2_copy_pyproject_toml` (lines 87-98): write the
rendered template (mode `wt` truncates), then append the base template. -/
def copyPyprojectToml (src : SourceTree) (r : Runner) (s : St) : StageResult :=
  let rendered :=
    String.join (renderSetuptoolsLines r.projectName r.description src.setuptoolsTomlLines)
  let s1 : St :=
    { fs := FS.set s.fs (r.projectRootPath ++ ["pyproject.toml"]) (Entry.file rendered)
      trace := s.trace ++ [Event.writePyprojectSetuptools] }
  updatePyprojectToml src r s1

/-- `_2_create_venv` (lines 100-103): `venv.create(".venv")` in the root. -/
def createVenv (r : Runner) (s : St) : StageResult :=
  Except.ok
    { fs := FS.set s.fs (r.projectRootPath ++ [".venv"]) Entry.dir
      trace := s.trace ++ [Event.createVenv] }

/-- `_3_run_pip_install` (lines 105-108): `subprocess.run(..., check=True)` —
a non-zero exit raises. -/
def runPipInstall (env : ExtEnv) (r : Runner) (s : St) : StageResult :=
  let s1 : St := { s with trace := s.trace ++ [Event.pipInstall] }
  if env.pipInstallCode = 0 then Except.ok s1
  else Except.error (Err.externalToolError "pip install -e .[dev]" env.pipInstallCode, s1)

/-- `SetuptoolsRunner.run` (lines 110-114). -/
def setuptoolsRun (env : ExtEnv) (src : SourceTree) (r : Runner)
    (force noGit : Bool) (s : St) : StageResult :=
  match runnerRun baseFilenamesDefault env src r force noGit s with
  | Except.error e => Except.error e
  | Except.ok s =>
  match copyPyprojectToml src r s with
  | Except.error e => Except.error e
  | Except.ok s =>
  match createVenv r s with
  | Except.error e => Except.error e
  | Except.ok s => runPipInstall env r s

/-- `PoetryRunner._3_init_poetry` (lines 120-139): `subprocess.call` — the
exit status is returned but DISCARDED by the source, so a non-zero status
cannot raise here. -/
def initPoetry (env : ExtEnv) (r : Runner) (s : St) : StageResult :=
  let _exitCode := env.poetryInitCode
  Except.ok { s with trace := s.trace ++ [Event.poetryInit] }

/-- `PoetryRunner._4_sync_poetry` (lines 145-147): `subprocess.call`, exit
status likewise discarded. -/
def syncPoetry (env : ExtEnv) (r : Runner) (s : St) : StageResult :=
  let _exitCode := env.poetrySyncCode
  Except.ok { s with trace := s.trace ++ [Event.poetrySync] }

/-- `PoetryRunner.run` (lines 149-153); `_4_update_pyproject_toml` only wraps
`_update_pyproject_toml` with a print. -/
def poetryRun (env : ExtEnv) (src : SourceTree) (r : Runner)
    (force noGit : Bool) (s : St) : StageResult :=
  match runnerRun baseFilenamesPoetry env src r force noGit s with
  | Except.error e => Except.error e
  | Except.ok s =>
  match initPoetry env r s with
  | Except.error e => Except.error e
  | Except.ok s =>
  match updatePyprojectToml src r s with
  | Except.error e => Except.error e
  | Except.ok s => syncPoetry env r s

inductive BuildSystem
  | poetry
  | setuptools
  deriving DecidableEq

/-- `main` (lines 156-176) after argument parsing: construct the runner
(validation), then run the prompt answer through `.lower() != "n"`; only a
consenting answer reaches `runner.run`. -/
def mainRun (env : ExtEnv) (src : SourceTree) (buildSystem : BuildSystem)
    (projectPath : Path) (projectName description : String)
    (force noGit : Bool) (answer : String) (fs : FS) : StageResult :=
  match Runner.init projectPath projectName description with
  | Except.error e => Except.error (e, { fs := fs, trace := [] })
  | Except.ok r =>
    if pyLower answer ≠ "n" then
      match buildSystem with
      | BuildSystem.poetry => poetryRun env src r force noGit { fs := fs, trace := [] }
      | BuildSystem.setuptools => setuptoolsRun env src r force noGit { fs := fs, trace := [] }
    else
      Except.ok { fs := fs, trace := [] }

/-! ## Concrete instances used by witnesses and counterexamples -/

def envZ : ExtEnv :=
  { gitInitCode := 0, pipInstallCode := 0, poetryInitCode := 0, poetrySyncCode := 0 }

def srcZ : SourceTree :=
  { baseFileContent := fun _ => ""
    setuptoolsTomlLines := ["name = " ++ projectNamePlaceholder ++ "\n"]
    baseToml := "[tool.base]\n" }

def rDemo : Runner := mkRunner ["proj"] "my-lib" ""

def markerPath : Path := ["proj", "src", "my_lib", "__init__.py"]

/-! ## Helper lemmas -/

theorem data_asString (s : String) : s.data.asString = s := rfl

theorem replaceFuel_eq_of_not_contains (pat repl : List Char) :
    ∀ (cs : List Char) (fuel : Nat), containsPat pat cs = false →
      replaceFuel pat repl fuel cs = cs
  | [], fuel, _ => by cases fuel <;> rfl
  | _ :: _, 0, _ => rfl
  | c :: rest, fuel + 1, h => by
    have h2 : (pat.isPrefixOf (c :: rest) || containsPat pat rest) = false := h
    rw [Bool.or_eq_false_iff] at h2
    simp only [replaceFuel, h2.1, Bool.false_eq_true, if_false]
    exact congrArg (c :: ·) (replaceFuel_eq_of_not_contains pat repl rest fuel h2.2)

theorem replaceAll_eq_of_not_contains (pat repl cs : List Char)
    (h : containsPat pat cs = false) : replaceAll pat repl cs = cs :=
  replaceFuel_eq_of_not_contains pat repl cs cs.length h

theorem pyReplace_eq_of_not_contains (s pat repl : String)
    (h : containsPat pat.data s.data = false) : pyReplace s pat repl = s := by
  unfold pyReplace
  rw [replaceAll_eq_of_not_contains pat.data repl.data s.data h, data_asString]

/-- A template with no `[project]` section at all; its second line carries the
`{{project_name}}` placeholder. -/
def demoTemplate : List String :=
  ["[tool.other]\n", "x = " ++ projectNamePlaceholder ++ "\n"]

/-- C3 counterexample: the claim says that with name `demo-app` and
description `hello` exactly the recognized `name =` / `description =` key
lines inside the matched `[project]`-equivalent section are rewritten and
that no line outside the matched section is ever rewritten.  On
`demoTemplate`, which contains no `[project]` section and no recognized key
line, the source's rendering loop (`_2_copy_pyproject_toml`) nevertheless
rewrites the second line, because substitution is placeholder-driven and
section-blind: the result is not byte-identical to the template. -/
theorem C3_counterexample :
    renderSetuptoolsLines "demo-app" "hello" demoTemplate ≠ demoTemplate ∧
    renderSetuptoolsLines "demo-app" "hello" demoTemplate =
      ["[tool.other]\n", "x = demo-app\n"] := by
  exact ⟨by decide, by decide⟩

/-- C3 amended: manifest rendering is per-line placeholder substitution —
each occurrence of `{{project_name}}` / `{{description}}` is replaced with
the (unquoted) value irrespective of any section, and a line containing
neither placeholder is passed through byte-identical. -/
theorem C3_amended_render (name desc line : String)
    (h1 : containsPat projectNamePlaceholder.data line.data = false)
    (h2 : containsPat descriptionPlaceholder.data line.data = false) :
    renderLine name desc line = line := by
  unfold renderLine
  rw [pyReplace_eq_of_not_contains line projectNamePlaceholder name h1,
    pyReplace_eq_of_not_contains line descriptionPlaceholder desc h2]

/-- C3 witness: a placeholder-free line is rendered unchanged. -/
theorem C3_amended_render_witness :
    renderLine "demo-app" "hello" "readme = \x22README.md\x22\n" =
      "readme = \x22README.md\x22\n" :=
  C3_amended_render "demo-app" "hello" "readme = \x22README.md\x22\n"
    (by decide) (by decide)

/-- C4 counterexample: the claim says the marker write always (re)truncates,
so after a second run the marker is empty regardless of content it held
between the runs.  The source uses `Path.touch()`, which never truncates: if
the marker holds `"leftover"` between the two runs, it still holds
`"leftover"` after the second run. -/
theorem C4_counterexample :
    runOk (createSrcDir rDemo { fs := [], trace := [] }) = true ∧
    runOk (createSrcDir rDemo
      { fs := FS.set (resultState (createSrcDir rDemo { fs := [], trace := [] })).fs
          markerPath (Entry.file "leftover"), trace := [] }) = true ∧
    FS.lookup (resultState (createSrcDir rDemo
      { fs := FS.set (resultState (createSrcDir rDemo { fs := [], trace := [] })).fs
          markerPath (Entry.file "leftover"), trace := [] })).fs markerPath =
      some (Entry.file "leftover") := by
  exact ⟨by decide, by decide, by decide⟩

/-- C4 amended: running the source-layout initialization twice does not raise
on the second directory creation and leaves exactly one package-marker file,
but the marker write never truncates: whatever content the marker held
between the runs is preserved (the file is created empty only when absent,
which is why a fresh double run ends with an empty marker). -/
theorem C4_amended_touch (c : String) :
    runOk (createSrcDir rDemo
      { fs := FS.set (resultState (createSrcDir rDemo { fs := [], trace := [] })).fs
          markerPath (Entry.file c), trace := [] }) = true ∧
    FS.lookup (resultState (createSrcDir rDemo
      { fs := FS.set (resultState (createSrcDir rDemo { fs := [], trace := [] })).fs
          markerPath (Entry.file c), trace := [] })).fs markerPath =
      some (Entry.file c) ∧
    ((resultState (createSrcDir rDemo
      { fs := FS.set (resultState (createSrcDir rDemo { fs := [], trace := [] })).fs
          markerPath (Entry.file c), trace := [] })).fs.filter
        (fun kv => kv.1 == markerPath)).length = 1 := by
  exact ⟨rfl, rfl, rfl⟩

def initOk : Except Err Runner → Bool
  | Except.ok _ => true
  | Except.error _ => false

/-- C5 counterexample: the claim says every name containing a character
outside the allowed set — explicitly including a trailing newline — fails
validation.  But Python's `$` also matches just before a single trailing
newline, so `"demo\n"` (which contains the disallowed `'\n'`) is accepted by
`Runner.__init__`. -/
theorem C5_counterexample :
    initOk (Runner.init ["p"] "demo\n" "") = true ∧
    nameRegexMatch "demo\n".data = true ∧
    '\n' ∈ "demo\n".data ∧ isAllowedChar '\n' = false := by
  exact ⟨by decide, by decide, by decide, by decide⟩

/-- C5 amended: validation succeeds iff the name is a nonempty string of
ASCII letters, digits, hyphens and underscores, optionally followed by
exactly one trailing newline (the `$`-before-final-newline semantics of
Python's `re.match` anchor). -/
theorem C5_amended_regex (cs : List Char) :
    nameRegexMatch cs = true ↔
      ((cs ≠ [] ∧ ∀ c ∈ cs, isAllowedChar c = true) ∨
       (∃ core, cs = core ++ ['\n'] ∧ core ≠ [] ∧ ∀ c ∈ core, isAllowedChar c = true)) := by
  unfold nameRegexMatch stripTrailingNewline
  by_cases h : cs.getLast? = some '\n'
  · obtain ⟨ys, rfl⟩ := List.getLast?_eq_some_iff.mp h
    rw [if_pos h, List.dropLast_concat]
    simp only [Bool.and_eq_true, Bool.not_eq_true', List.isEmpty_eq_false,
      List.all_eq_true]
    constructor
    · intro hy
      exact Or.inr ⟨ys, rfl, hy.1, hy.2⟩
    · rintro (⟨_, hall⟩ | ⟨core, hcore, hne, hall⟩)
      · have : isAllowedChar '\n' = true := hall '\n' (by simp)
        exact absurd this (by decide)
      · obtain rfl : ys = core := List.append_cancel_right hcore
        exact ⟨hne, hall⟩
  · rw [if_neg h]
    simp only [Bool.and_eq_true, Bool.not_eq_true', List.isEmpty_eq_false,
      List.all_eq_true]
    constructor
    · intro hy
      exact Or.inl ⟨hy.1, hy.2⟩
    · rintro (⟨hne, hall⟩ | ⟨core, rfl, hne, hall⟩)
      · exact ⟨hne, hall⟩
      · exact absurd (List.getLast?_concat core) h

theorem toNat_ofNat_valid (n : Nat) (h : n < 55296) : (Char.ofNat n).toNat = n := by
  unfold Char.ofNat
  rw [dif_pos (Or.inl h)]
  rfl

theorem asciiLowerChar_eq_n (c : Char) :
    asciiLowerChar c = 'n' ↔ c = 'n' ∨ c = 'N' := by
  unfold asciiLowerChar
  split_ifs with h
  · constructor
    · intro heq
      have hv : c.toNat + 32 < 55296 := by omega
      have ht := congrArg Char.toNat heq
      rw [toNat_ofNat_valid (c.toNat + 32) hv] at ht
      have h110 : Char.toNat 'n' = 110 := by decide
      rw [h110] at ht
      have h78 : c.toNat = 78 := by omega
      have hc := Char.ofNat_toNat c
      rw [h78] at hc
      have hN : Char.ofNat 78 = 'N' := by decide
      rw [hN] at hc
      exact Or.inr hc.symm
    · rintro (rfl | rfl)
      · exact absurd h (by decide)
      · decide
  · constructor
    · intro heq
      exact Or.inl heq
    · rintro (rfl | rfl)
      · rfl
      · exact absurd (by decide : 65 ≤ Char.toNat 'N' ∧ Char.toNat 'N' ≤ 90) h

theorem pyLower_eq_n (s : String) : pyLower s = "n" ↔ s = "n" ∨ s = "N" := by
  constructor
  · intro h
    obtain ⟨data⟩ := s
    have hl : data.map asciiLowerChar = ['n'] := congrArg String.data h
    match data, hl with
    | [], hl => simp at hl
    | [c], hl =>
      have hc : asciiLowerChar c = 'n' := by simpa using hl
      rcases (asciiLowerChar_eq_n c).mp hc with rfl | rfl
      · exact Or.inl (by decide)
      · exact Or.inr (by decide)
    | c1 :: c2 :: rest, hl => simp at hl
  · rintro (rfl | rfl) <;> decide

/-- C6: if the target root already exists as a directory and `force` is not
set, the run fails with the path-conflict error and performs zero filesystem
writes — the result carries the unchanged filesystem and an empty event
trace, for every build system, environment and template content. -/
theorem C6_pathConflict (env : ExtEnv) (src : SourceTree) (bs : BuildSystem)
    (path : Path) (name desc : String) (noGit : Bool) (answer : String) (fs : FS)
    (hname : nameRegexMatch name.data = true)
    (hdir : FS.lookup fs path = some Entry.dir)
    (hans : pyLower answer ≠ "n") :
    mainRun env src bs path name desc false noGit answer fs =
      Except.error (Err.pathConflict path, { fs := fs, trace := [] }) := by
  cases bs <;>
    simp [mainRun, Runner.init, hname, hans, poetryRun, setuptoolsRun, runnerRun,
      createProjectDir, mkRunner, hdir]

/-- C6 witness: a concrete second run against an existing root without
`force` fails with `pathConflict` and leaves the filesystem untouched. -/
theorem C6_pathConflict_witness :
    mainRun envZ srcZ BuildSystem.poetry ["proj"] "my-lib" "" false false ""
      [(["proj"], Entry.dir)] =
      Except.error (Err.pathConflict ["proj"],
        { fs := [(["proj"], Entry.dir)], trace := [] }) :=
  C6_pathConflict envZ srcZ BuildSystem.poetry ["proj"] "my-lib" "" false ""
    [(["proj"], Entry.dir)] (by decide) (by decide) (by decide)

/-- C7: if the target root exists and is not a directory, the run fails with
the not-a-directory error for BOTH values of `force` (the check precedes the
force check), again with zero filesystem writes. -/
theorem C7_notADirectory (env : ExtEnv) (src : SourceTree) (bs : BuildSystem)
    (path : Path) (name desc : String) (force noGit : Bool) (answer : String)
    (fs : FS) (content : String)
    (hname : nameRegexMatch name.data = true)
    (hfile : FS.lookup fs path = some (Entry.file content))
    (hans : pyLower answer ≠ "n") :
    mainRun env src bs path name desc force noGit answer fs =
      Except.error (Err.notADirectory path, { fs := fs, trace := [] }) := by
  cases bs <;>
    simp [mainRun, Runner.init, hname, hans, poetryRun, setuptoolsRun, runnerRun,
      createProjectDir, mkRunner, hfile]

/-- C7 witness: with `force := true` the not-a-directory conflict still
aborts the run. -/
theorem C7_notADirectory_witness :
    mainRun envZ srcZ BuildSystem.setuptools ["proj"] "my-lib" "" true false ""
      [(["proj"], Entry.file "occupied")] =
      Except.error (Err.notADirectory ["proj"],
        { fs := [(["proj"], Entry.file "occupied")], trace := [] }) :=
  C7_notADirectory envZ srcZ BuildSystem.setuptools ["proj"] "my-lib" "" true false ""
    [(["proj"], Entry.file "occupied")] "occupied" (by decide) (by decide) (by decide)

/-- C8: name validation happens in `Runner.__init__` before any filesystem
access, so an invalid name fails the whole invocation with the invalid-name
error, the filesystem unchanged and the event trace empty — no stage with
side effects runs. -/
theorem C8_invalidName (env : ExtEnv) (src : SourceTree) (bs : BuildSystem)
    (path : Path) (name desc : String) (force noGit : Bool) (answer : String)
    (fs : FS) (hname : nameRegexMatch name.data = false) :
    mainRun env src bs path name desc force noGit answer fs =
      Except.error (Err.invalidName, { fs := fs, trace := [] }) := by
  simp [mainRun, Runner.init, hname]

/-- C8 witness: the spec's own example name `"bad name!"` aborts before any
directory is created. -/
theorem C8_invalidName_witness :
    mainRun envZ srcZ BuildSystem.poetry ["proj"] "bad name!" "" false false "" [] =
      Except.error (Err.invalidName, { fs := [], trace := [] }) :=
  C8_invalidName envZ srcZ BuildSystem.poetry ["proj"] "bad name!" "" false false "" []
    (by decide)

/-- C9: the README stage always succeeds and writes `README.md` whose content
is `# <name>`, followed by a newline and the description exactly when the
description is nonempty; it appends the `writeReadme` event.  Instantiated at
name `my-lib`, description `A test` this yields `# my-lib\nA test`. -/
theorem C9_readme (r : Runner) (s : St) :
    ∃ s', writeReadme r s = Except.ok s' ∧
      FS.lookup s'.fs (r.projectRootPath ++ ["README.md"]) =
        some (Entry.file (if r.description = "" then "# " ++ r.projectName
          else "# " ++ r.projectName ++ "\n" ++ r.description)) ∧
      s'.trace = s.trace ++ [Event.writeReadme] := by
  refine ⟨_, rfl, ?_, rfl⟩
  by_cases hd : r.description = "" <;>
    simp [writeReadme, FS.lookup, FS.set, hd, String.append_assoc]

/-- C10: the confirmation gate.  With a valid name: an answer whose
ASCII-lowering is `"n"` makes the run a no-op (unchanged filesystem, empty
trace); any other answer makes `mainRun` equal to the selected strategy's
full run; and the declining answers are exactly `"n"` and `"N"`. -/
theorem C10_confirmGate (env : ExtEnv) (src : SourceTree) (bs : BuildSystem)
    (path : Path) (name desc : String) (force noGit : Bool) (answer : String)
    (fs : FS) (hname : nameRegexMatch name.data = true) :
    (pyLower answer = "n" →
      mainRun env src bs path name desc force noGit answer fs =
        Except.ok { fs := fs, trace := [] }) ∧
    (pyLower answer ≠ "n" →
      mainRun env src bs path name desc force noGit answer fs =
        (match bs with
         | BuildSystem.poetry =>
            poetryRun env src (mkRunner path name desc) force noGit { fs := fs, trace := [] }
         | BuildSystem.setuptools =>
            setuptoolsRun env src (mkRunner path name desc) force noGit { fs := fs, trace := [] })) ∧
    (pyLower answer = "n" ↔ answer = "n" ∨ answer = "N") := by
  refine ⟨?_, ?_, pyLower_eq_n answer⟩
  · intro h
    simp [mainRun, Runner.init, hname, h]
  · intro h
    cases bs <;> simp [mainRun, Runner.init, hname, h]

/-- C10 witness: answering `"N"` declines — the pipeline performs no side
effects at all. -/
theorem C10_confirmGate_witness :
    mainRun envZ srcZ BuildSystem.poetry ["proj"] "my-lib" "" false false "N" [] =
      Except.ok { fs := [], trace := [] } :=
  (C10_confirmGate envZ srcZ BuildSystem.poetry ["proj"] "my-lib" "" false false "N" []
    (by decide)).1 (by decide)

/-! ## Trace-shape lemmas for the stage ordering claims -/

theorem createProjectDir_ok_trace {r : Runner} {force : Bool} {s s' : St}
    (h : createProjectDir r force s = Except.ok s') :
    s'.trace = s.trace ∨ s'.trace = s.trace ++ [Event.mkdirProjectRoot] := by
  unfold createProjectDir at h
  split at h
  · exact absurd h (by simp)
  · split at h
    · simp only [Except.ok.injEq] at h
      subst h
      exact Or.inl rfl
    · exact absurd h (by simp)
  · split at h
    · exact absurd h (by simp)
    · simp only [Except.ok.injEq] at h
      subst h
      exact Or.inr rfl

theorem writeReadme_ok_trace {r : Runner} {s s' : St}
    (h : writeReadme r s = Except.ok s') :
    s'.trace = s.trace ++ [Event.writeReadme] := by
  unfold writeReadme at h
  simp only [Except.ok.injEq] at h
  subst h
  rfl

theorem createSrcDir_ok_trace {r : Runner} {s s' : St}
    (h : createSrcDir r s = Except.ok s') :
    s'.trace = s.trace ++ [Event.mkdirSrc, Event.touchInit] := by
  unfold createSrcDir at h
  split at h
  · exact absurd h (by simp)
  · simp only [Except.ok.injEq] at h
    subst h
    rfl

theorem copyBaseFiles_ok_trace {bf : List String} {src : SourceTree} {r : Runner}
    {s s' : St} (h : copyBaseFiles bf src r s = Except.ok s') :
    s'.trace = s.trace ++ bf.map Event.copyBaseFile := by
  unfold copyBaseFiles at h
  simp only [Except.ok.injEq] at h
  subst h
  rfl

theorem initGit_ok_trace {env : ExtEnv} {r : Runner} {s s' : St}
    (h : initGit env r s = Except.ok s') :
    s'.trace = s.trace ++ [Event.gitInit] := by
  unfold initGit at h
  split at h
  · simp only [Except.ok.injEq] at h
    subst h
    rfl
  · exact absurd h (by simp)

theorem updatePyprojectToml_ok_trace {src : SourceTree} {r : Runner} {s s' : St}
    (h : updatePyprojectToml src r s = Except.ok s') :
    s'.trace = s.trace ++ [Event.appendPyprojectBase] := by
  unfold updatePyprojectToml at h
  split at h
  · exact absurd h (by simp)
  · simp only [Except.ok.injEq] at h
    subst h
    rfl
  · simp only [Except.ok.injEq] at h
    subst h
    rfl

theorem copyPyprojectToml_ok_trace {src : SourceTree} {r : Runner} {s s' : St}
    (h : copyPyprojectToml src r s = Except.ok s') :
    s'.trace = s.trace ++ [Event.writePyprojectSetuptools, Event.appendPyprojectBase] := by
  unfold copyPyprojectToml at h
  have := updatePyprojectToml_ok_trace h
  simpa using this

theorem createVenv_ok_trace {r : Runner} {s s' : St}
    (h : createVenv r s = Except.ok s') :
    s'.trace = s.trace ++ [Event.createVenv] := by
  unfold createVenv at h
  simp only [Except.ok.injEq] at h
  subst h
  rfl

theorem runPipInstall_ok_trace {env : ExtEnv} {r : Runner} {s s' : St}
    (h : runPipInstall env r s = Except.ok s') :
    s'.trace = s.trace ++ [Event.pipInstall] := by
  unfold runPipInstall at h
  split at h
  · simp only [Except.ok.injEq] at h
    subst h
    rfl
  · exact absurd h (by simp)

theorem initPoetry_ok_trace {env : ExtEnv} {r : Runner} {s s' : St}
    (h : initPoetry env r s = Except.ok s') :
    s'.trace = s.trace ++ [Event.poetryInit] := by
  unfold initPoetry at h
  simp only [Except.ok.injEq] at h
  subst h
  rfl

theorem syncPoetry_ok_trace {env : ExtEnv} {r : Runner} {s s' : St}
    (h : syncPoetry env r s = Except.ok s') :
    s'.trace = s.trace ++ [Event.poetrySync] := by
  unfold syncPoetry at h
  simp only [Except.ok.injEq] at h
  subst h
  rfl

/-- The events of the common content-writing stages that precede `git init`
in `Runner.run` (README, source tree, static base files). -/
def commonPre (bf : List String) : List Event :=
  [Event.writeReadme, Event.mkdirSrc, Event.touchInit] ++ bf.map Event.copyBaseFile

/-- A successful `Runner.run` with version control enabled produces the
common content-writing events (optionally preceded by the root-creation
event) followed by `gitInit`, in that order. -/
theorem runnerRun_ok_trace {bf : List String} {env : ExtEnv} {src : SourceTree}
    {r : Runner} {force : Bool} {s s' : St}
    (h : runnerRun bf env src r force false s = Except.ok s') :
    ∃ pre, (pre = commonPre bf ∨ pre = Event.mkdirProjectRoot :: commonPre bf) ∧
      s'.trace = s.trace ++ pre ++ [Event.gitInit] := by
  unfold runnerRun at h
  split at h
  · exact absurd h (by simp)
  case _ s1 h1 =>
  split at h
  · exact absurd h (by simp)
  case _ s2 h2 =>
  split at h
  · exact absurd h (by simp)
  case _ s3 h3 =>
  split at h
  · exact absurd h (by simp)
  case _ s4 h4 =>
  simp only [Bool.false_eq_true, if_false] at h
  have t1 := createProjectDir_ok_trace h1
  have t2 := writeReadme_ok_trace h2
  have t3 := createSrcDir_ok_trace h3
  have t4 := copyBaseFiles_ok_trace h4
  have t5 := initGit_ok_trace h
  rcases t1 with t1 | t1
  · refine ⟨commonPre bf, Or.inl rfl, ?_⟩
    rw [t5, t4, t3, t2, t1]
    simp [commonPre]
  · refine ⟨Event.mkdirProjectRoot :: commonPre bf, Or.inr rfl, ?_⟩
    rw [t5, t4, t3, t2, t1]
    simp [commonPre]

/-- C1 counterexample: the claim requires version-control initialization to
execute only after every content-writing stage, explicitly including
manifest generation/extension and environment/dependency stages.  In a
concrete successful Setuptools run with version control enabled, `git init`
occurs strictly before the manifest write (`writePyprojectSetuptools`), so a
content-writing stage runs after it. -/
theorem C1_counterexample :
    runOk (setuptoolsRun envZ srcZ rDemo false false { fs := [], trace := [] }) = true ∧
    Event.writePyprojectSetuptools ∈
      resultTrace (setuptoolsRun envZ srcZ rDemo false false { fs := [], trace := [] }) ∧
    (resultTrace (setuptoolsRun envZ srcZ rDemo false false { fs := [], trace := [] })).indexOf
        Event.gitInit <
      (resultTrace (setuptoolsRun envZ srcZ rDemo false false { fs := [], trace := [] })).indexOf
        Event.writePyprojectSetuptools := by
  exact ⟨by decide, by decide, by decide⟩

/-- C1 amended: in every successful run of either variant with version
control enabled, `git init` executes after the common content-writing stages
(README, source tree, static base files, optionally preceded by root
creation) and BEFORE all build-system strategy stages (manifest
generation/extension, environment creation, dependency install), which form
the exact tail of the trace. -/
theorem C1_amended_order (env : ExtEnv) (src : SourceTree) (r : Runner)
    (force : Bool) (fs : FS) (s' : St) :
    (setuptoolsRun env src r force false { fs := fs, trace := [] } = Except.ok s' →
      ∃ pre, (pre = commonPre baseFilenamesDefault ∨
              pre = Event.mkdirProjectRoot :: commonPre baseFilenamesDefault) ∧
        s'.trace = pre ++ Event.gitInit ::
          [Event.writePyprojectSetuptools, Event.appendPyprojectBase,
           Event.createVenv, Event.pipInstall]) ∧
    (poetryRun env src r force false { fs := fs, trace := [] } = Except.ok s' →
      ∃ pre, (pre = commonPre baseFilenamesPoetry ∨
              pre = Event.mkdirProjectRoot :: commonPre baseFilenamesPoetry) ∧
        s'.trace = pre ++ Event.gitInit ::
          [Event.poetryInit, Event.appendPyprojectBase, Event.poetrySync]) := by
  constructor
  · intro h
    unfold setuptoolsRun at h
    split at h
    · exact absurd h (by simp)
    case _ s1 h1 =>
    split at h
    · exact absurd h (by simp)
    case _ s2 h2 =>
    split at h
    · exact absurd h (by simp)
    case _ s3 h3 =>
    obtain ⟨pre, hpre, t1⟩ := runnerRun_ok_trace h1
    have t2 := copyPyprojectToml_ok_trace h2
    have t3 := createVenv_ok_trace h3
    have t4 := runPipInstall_ok_trace h
    refine ⟨pre, hpre, ?_⟩
    rw [t4, t3, t2, t1]
    simp
  · intro h
    unfold poetryRun at h
    split at h
    · exact absurd h (by simp)
    case _ s1 h1 =>
    split at h
    · exact absurd h (by simp)
    case _ s2 h2 =>
    split at h
    · exact absurd h (by simp)
    case _ s3 h3 =>
    obtain ⟨pre, hpre, t1⟩ := runnerRun_ok_trace h1
    have t2 := initPoetry_ok_trace h2
    have t3 := updatePyprojectToml_ok_trace h3
    have t4 := syncPoetry_ok_trace h
    refine ⟨pre, hpre, ?_⟩
    rw [t4, t3, t2, t1]
    simp

/-- C1 witness: the amended ordering instantiated on a concrete successful
Setuptools run. -/
theorem C1_amended_order_witness :
    ∃ pre, (pre = commonPre baseFilenamesDefault ∨
            pre = Event.mkdirProjectRoot :: commonPre baseFilenamesDefault) ∧
      (resultState (setuptoolsRun envZ srcZ rDemo false false
          { fs := [], trace := [] })).trace =
        pre ++ Event.gitInit ::
          [Event.writePyprojectSetuptools, Event.appendPyprojectBase,
           Event.createVenv, Event.pipInstall] :=
  (C1_amended_order envZ srcZ rDemo false []
    (resultState (setuptoolsRun envZ srcZ rDemo false false { fs := [], trace := [] }))).1
    (by decide)

/-- Exit-code environment where `poetry init` exits 1 and everything else 0. -/
def envPoetryFail : ExtEnv :=
  { gitInitCode := 0, pipInstallCode := 0, poetryInitCode := 1, poetrySyncCode := 0 }

/-- Exit-code environment with `poetry init` exiting 7 and `poetry sync` 9. -/
def envPoetry79 : ExtEnv :=
  { gitInitCode := 0, pipInstallCode := 0, poetryInitCode := 7, poetrySyncCode := 9 }

/-- C2 counterexample: the claim says a non-zero exit of the dependency
manager's `init` command aborts the Poetry pipeline with no remaining
sub-step executing and a failing outcome.  With `poetry init` exiting 1, the
concrete run still succeeds and both remaining sub-steps (manifest append
and `poetry sync`) still execute. -/
theorem C2_counterexample :
    runOk (poetryRun envPoetryFail srcZ rDemo false false { fs := [], trace := [] }) = true ∧
    Event.appendPyprojectBase ∈
      resultTrace (poetryRun envPoetryFail srcZ rDemo false false { fs := [], trace := [] }) ∧
    Event.poetrySync ∈
      resultTrace (poetryRun envPoetryFail srcZ rDemo false false { fs := [], trace := [] }) := by
  exact ⟨by decide, by decide, by decide⟩

/-- C2 amended: the Poetry strategy invokes `poetry init` and `poetry sync`
through `subprocess.call`, whose exit status is discarded — the entire run
is independent of those two exit codes (only the `git init` code, checked
with `check=True`, can influence it), so all remaining sub-steps execute
whatever the dependency manager reports. -/
theorem C2_amended_callIgnored (env1 env2 : ExtEnv) (src : SourceTree)
    (r : Runner) (force noGit : Bool) (s : St)
    (hg : env1.gitInitCode = env2.gitInitCode) :
    poetryRun env1 src r force noGit s = poetryRun env2 src r force noGit s := by
  cases env1
  cases env2
  simp only at hg
  subst hg
  rfl

/-- C2 witness: the invariance applied with exit codes 7 and 9 for `poetry
init` / `poetry sync` against the all-zero environment. -/
theorem C2_amended_callIgnored_witness :
    poetryRun envPoetry79 srcZ rDemo false false { fs := [], trace := [] } =
      poetryRun envZ srcZ rDemo false false { fs := [], trace := [] } :=
  C2_amended_callIgnored envPoetry79 envZ srcZ rDemo false false
    { fs := [], trace := [] } rfl

end PyBoilerplate
